import Mathlib

/-!
# Verification of the MLServer custom-runtime example (`NumpyroModel`)

Shallow embedding of the `NumpyroModel` inference runtime defined in
`docs/examples/custom/README.ipynb` (the `models.py` cell), together with the
parts of the surrounding server contract that the specification describes
(tensor payload model, request handler).

Modelling conventions:
* Python numeric values (numpy / jax floats) are modelled as `Rat`, an exact
  abstraction; no claim here depends on IEEE rounding.
* Python `dict[str, ...]` values are modelled as association lists built with
  an insert that overwrites an existing key in place (Python dict ordering).
* The `numpyro` library is out of scope of the spec (external collaborator);
  its `Predictive` object is abstracted as a deterministic function of the
  posterior samples, the explicit PRNG key and the keyword inputs — jax
  sampling is a pure function of the explicit key.
* Methods that can raise return `Except`; methods that can mutate `self`
  additionally return the post-state.
-/

namespace MLServer

/-- A Python float value, modelled exactly. -/
abbrev PyFloat := Rat

/-- Embedding of `mlserver.types.RequestInput`: one named input tensor of an inference
request, as used by the notebook (fields `name`, `shape`, `datatype`, `data`,
`parameters`). -/
structure RequestInput where
  name : String
  shape : List Nat
  datatype : String
  data : List PyFloat
  parameters : Option (List (String × String)) := none
  deriving DecidableEq, Repr

/-- Embedding of `mlserver.types.InferenceRequest`: optional correlation `id`, ordered
input tensors, optional parameters. -/
structure InferenceRequest where
  id : Option String := none
  inputs : List RequestInput
  parameters : Option (List (String × String)) := none
  deriving DecidableEq, Repr

/-- Embedding of `mlserver.types.ResponseOutput`: one named output tensor of an inference
response. -/
structure ResponseOutput where
  name : String
  shape : List Nat
  datatype : String
  data : List PyFloat
  parameters : Option (List (String × String)) := none
  deriving DecidableEq, Repr

/-- Embedding of `mlserver.types.InferenceResponse`: response identity plus output
tensors, exactly the fields the notebook's `predict` constructs. -/
structure InferenceResponse where
  id : Option String
  model_name : String
  model_version : Option String
  outputs : List ResponseOutput
  deriving DecidableEq, Repr

/-- Exceptions that the embedded `predict` body can raise. -/
inductive PyError where
  /-- Constructor for `InvalidInputError`: the runtime-detected missing-input failure named by
  the spec; present in the error type so that its absence in `predict` is an
  observable fact, not an artefact of the embedding. -/
  | invalidInputError (missingTensor : String)
  /-- Constructor for `TypeError`: raised by Python when `**inputs` passes a keyword that is
  not a parameter of `_model(self, marriage=None, age=None, divorce=None)`. -/
  | typeError (badKeyword : String)
  /-- Constructor for `AttributeError`: raised when `self._predictive` is accessed before
  `load` has set it. -/
  | attributeError (attr : String)
  deriving DecidableEq, Repr

/-- Posterior samples dictionary `self._samples` (`str -> np.array`). -/
abbrev Samples := List (String × List PyFloat)

/-- Keyword-inputs dictionary passed to the predictive (`str -> np.array`). -/
abbrev InputsDict := List (String × List PyFloat)

/-- Python `d[k] = v` on a dict modelled as an association list: an existing
key is overwritten in place, a new key is appended. -/
def dictInsert (d : List (String × List PyFloat)) (k : String) (v : List PyFloat) :
    List (String × List PyFloat) :=
  match d with
  | [] => [(k, v)]
  | (k₁, v₁) :: rest =>
      if k₁ = k then (k, v) :: rest else (k₁, v₁) :: dictInsert rest k v

/-- Embedding of `jax.random.PRNGKey`: a pure function of the integer seed. -/
def PRNGKey (seed : Nat) : Nat := seed

/-- Embedding of `np.mean` over a vector, exactly: sum divided by length. -/
def listMean (xs : List PyFloat) : PyFloat :=
  xs.sum / (xs.length : PyFloat)

/-- The keyword parameters of `NumpyroModel._model`
(`marriage=None, age=None, divorce=None`); any other keyword passed through
`**inputs` raises `TypeError`. -/
def modelParamNames : List String := ["marriage", "age", "divorce"]

/-- The surface of the `numpyro` library used by the runtime. The library is
out of scope of the spec (an external collaborator), so
`Predictive(self._model, samples)` is abstracted as a deterministic function:
given the samples it was built from, an explicit PRNG key and the keyword
inputs, it returns the sampled observations `predictions["obs"]`. -/
structure NumpyroLib where
  Predictive : Samples → Nat → InputsDict → List PyFloat

/-- The mutable state of one `NumpyroModel` instance: identity (`name`,
`version`), readiness flag, and the attributes set by `load`
(`self._samples`, `self._predictive`). A not-yet-set `_predictive` is `none`
(attribute missing). -/
structure NumpyroModelState where
  name : String
  version : Option String
  ready : Bool
  _samples : Samples
  _predictive : Option (Nat → InputsDict → List PyFloat)

/-- Modelled from the spec: the base `MLModel` constructor is not in `src/`;
per the spec a `RuntimeInstance` has `ready` "false until `load` succeeds",
and the attributes `_samples` / `_predictive` are unset before `load`. -/
def NumpyroModelState.init (name : String) (version : Option String) : NumpyroModelState :=
  { name := name, version := version, ready := false, _samples := [], _predictive := none }

/-- Embedding of `NumpyroModel.load`: reads and parses the model file (its outcome is the
`readResult` argument: `.error e` models `open`/`json.load` raising `e`, which
happens before any assignment to `self`), rebuilds `self._samples` key by key,
constructs `self._predictive = Predictive(self._model, self._samples)`, sets
`self.ready = True` and returns `self.ready`. -/
def NumpyroModelState.load (s : NumpyroModelState) (lib : NumpyroLib)
    (readResult : Except String Samples) :
    Except String Bool × NumpyroModelState :=
  match readResult with
  | .error e => (.error e, s)
  | .ok rawSamples =>
      let samples := rawSamples.foldl (fun d kv => dictInsert d kv.1 kv.2) []
      let s₁ := { s with _samples := samples,
                         _predictive := some (lib.Predictive samples),
                         ready := true }
      (.ok s₁.ready, s₁)

/-- Embedding of `NumpyroModel._extract_inputs`: builds the keyword dictionary
`inputs[inp.name] = np.array(inp.data)` over `payload.inputs`; it reads only
`inp.name` and `inp.data` of each input. -/
def extractInputs (payload : InferenceRequest) : InputsDict :=
  payload.inputs.foldl (fun d inp => dictInsert d inp.name inp.data) []

/-- The shape of a 0-dimensional numpy array (`obs_mean.shape` is `()`). -/
def scalarShape : List Nat := []

/-- The flattened wire form of a 0-dimensional array: its single element
(`data=np.asarray(obs_mean).tolist()` carried as the tensor's data list). -/
def scalarData (x : PyFloat) : List PyFloat := [x]

/-- Embedding of `NumpyroModel.predict`: extracts the inputs, calls
`self._predictive(rng_key=random.PRNGKey(0), **inputs)`, takes
`predictions["obs"].mean()` and wraps it in an `InferenceResponse` echoing
`payload.id` and carrying `self.name` / `self.version`. The `ambientKey`
argument models whatever per-call randomness the surrounding server could
offer; the source never consults it — the key is fixed to `PRNGKey 0` on
every call. The state is returned so that the absence of mutation is a
theorem rather than a convention. -/
def NumpyroModelState.predict (s : NumpyroModelState) (payload : InferenceRequest)
    (ambientKey : Nat) : Except PyError InferenceResponse × NumpyroModelState :=
  let inputs := extractInputs payload
  match s._predictive with
  | none => (.error (.attributeError "_predictive"), s)
  | some predictive =>
      if inputs.all (fun kv => modelParamNames.contains kv.1) then
        let obs := predictive (PRNGKey 0) inputs
        let obsMean := listMean obs
        (.ok { id := payload.id
               model_name := s.name
               model_version := s.version
               outputs := [{ name := "obs_mean"
                             shape := scalarShape
                             datatype := "FP32"
                             data := scalarData obsMean
                             parameters := none }] }, s)
      else
        (.error (.typeError "unexpected keyword argument"), s)

/-- The V2 tensor invariant stated by the spec: `data` length equals the
product of `shape`, and a zero dimension forces empty `data`. -/
def tensorInvariant (o : ResponseOutput) : Bool :=
  (o.data.length == o.shape.prod) && (!(o.shape.contains 0) || o.data.isEmpty)

/-- Modelled from the spec: the Inference Request Handler's id completion is
not in `src/`. Per the spec an `InferenceRequest` carries an "optional `id`
(opaque correlation string, generated if absent)": the handler leaves a
present id alone and fills an absent one with a freshly generated string. -/
def completeId (freshId : String) (req : InferenceRequest) : InferenceRequest :=
  match req.id with
  | some _ => req
  | none => { req with id := some freshId }

/-- Modelled from the spec: the Inference Request Handler (`handle`) is not in
`src/`; it binds an inbound request to the resolved runtime instance —
completing a missing `id` — and invokes `predict` on it. -/
def handle (s : NumpyroModelState) (freshId : String) (req : InferenceRequest)
    (ambientKey : Nat) : Except PyError InferenceResponse × NumpyroModelState :=
  s.predict (completeId freshId req) ambientKey

/-! ## Tensor payload model (spec §4.1)

The Tensor Payload Model's `toArray` / `fromArray` live in the `mlserver`
library, which is not in `src/`; they are modelled from the spec. -/

/-- Modelled from the spec: the fixed, versioned set of scalar datatype tags
of the V2 protocol ("floating-point-32, integer-64, boolean, byte-string",
etc.). -/
inductive Datatype where
  | BOOL
  | UINT8 | UINT16 | UINT32 | UINT64
  | INT8 | INT16 | INT32 | INT64
  | FP16 | FP32 | FP64
  | BYTES
  deriving DecidableEq, Repr

/-- Modelled from the spec: one scalar element of a tensor's flattened
`data`, carried exactly (booleans, integers, exact numerics for the
floating-point tags, byte-strings). -/
inductive Scalar where
  | boolVal (b : Bool)
  | intVal (i : Int)
  | floatVal (q : Rat)
  | bytesVal (s : String)
  deriving DecidableEq, Repr

/-- Whether a scalar value is of the element kind (and, for the integer tags,
within the representable range) declared by the datatype tag. -/
def scalarMatches (dt : Datatype) (v : Scalar) : Bool :=
  match dt, v with
  | .BOOL, .boolVal _ => true
  | .UINT8, .intVal i => decide (0 ≤ i ∧ i < 2 ^ 8)
  | .UINT16, .intVal i => decide (0 ≤ i ∧ i < 2 ^ 16)
  | .UINT32, .intVal i => decide (0 ≤ i ∧ i < 2 ^ 32)
  | .UINT64, .intVal i => decide (0 ≤ i ∧ i < 2 ^ 64)
  | .INT8, .intVal i => decide (-(2 ^ 7) ≤ i ∧ i < 2 ^ 7)
  | .INT16, .intVal i => decide (-(2 ^ 15) ≤ i ∧ i < 2 ^ 15)
  | .INT32, .intVal i => decide (-(2 ^ 31) ≤ i ∧ i < 2 ^ 31)
  | .INT64, .intVal i => decide (-(2 ^ 63) ≤ i ∧ i < 2 ^ 63)
  | .FP16, .floatVal _ => true
  | .FP32, .floatVal _ => true
  | .FP64, .floatVal _ => true
  | .BYTES, .bytesVal _ => true
  | _, _ => false

/-- Modelled from the spec: a `TensorPayload` — named, shaped, typed
flattened array with optional uninterpreted parameters (spec §3). -/
structure TensorPayload where
  name : String
  shape : List Nat
  datatype : Datatype
  data : List Scalar
  parameters : List (String × Scalar) := []
  deriving DecidableEq, Repr

/-- The spec's validity invariant on a payload: `data` length equals the
product of `shape`, a zero dimension forces empty `data`, and every element
matches the declared datatype (a recognized tag by construction). -/
def TensorPayload.valid (p : TensorPayload) : Bool :=
  (p.data.length == p.shape.prod)
    && (!(p.shape.contains 0) || p.data.isEmpty)
    && p.data.all (scalarMatches p.datatype)

/-- Modelled from the spec: the in-memory numeric array abstraction the
payload round-trips through — flattened values, shape and datatype. -/
structure MemArray where
  values : List Scalar
  shape : List Nat
  datatype : Datatype
  deriving DecidableEq, Repr

/-- Modelled from the spec: `toArray(payload)` — the flattened wire form read
into the in-memory array abstraction, with no value transformation. -/
def toArray (p : TensorPayload) : MemArray :=
  { values := p.data, shape := p.shape, datatype := p.datatype }

/-- Modelled from the spec: `fromArray(values, shape, datatype)` — rebuilds a
wire payload from an in-memory array, with no value transformation. The spec
gives `fromArray` no name or parameters argument, so the rebuilt payload has
an empty name and no parameters. -/
def fromArray (values : List Scalar) (shape : List Nat) (datatype : Datatype) :
    TensorPayload :=
  { name := "", shape := shape, datatype := datatype, data := values, parameters := [] }

/-! ## Concrete evaluation data

Small concrete instances used to evaluate the definitions on explicit
inputs. -/

/-- A concrete stand-in for the abstract numpyro predictive: always returns
the three observations `[1, 2, 3]` (mean `2`). -/
def demoPredictive : Nat → InputsDict → List PyFloat := fun _ _ => [1, 2, 3]

/-- A concrete numpyro library whose predictive is `demoPredictive`. -/
def demoLib : NumpyroLib := { Predictive := fun _ _ _ => [1, 2, 3] }

/-- Concrete raw samples as parsed from a model file. -/
def demoRaw : Samples := [("a", [1, 2]), ("sigma", [1])]

/-- A concrete loaded instance named `numpyro-divorce`, version `0.1.0`. -/
def demoState : NumpyroModelState :=
  { name := "numpyro-divorce", version := some "0.1.0", ready := true,
    _samples := demoRaw, _predictive := some demoPredictive }

/-- A concrete request carrying id `r1` and a single `marriage` input. -/
def demoRequest : InferenceRequest :=
  { id := some "r1",
    inputs := [{ name := "marriage", shape := [1], datatype := "FP32", data := [28] }] }

/-- The same request content as `demoRequest` but with a different declared
shape, datatype and parameters on its input (names and data agree). -/
def demoRequestAlt : InferenceRequest :=
  { id := some "r1",
    inputs := [{ name := "marriage", shape := [1, 1], datatype := "FP64", data := [28],
                 parameters := some [("content_type", "np")] }] }

/-- The single output tensor `predict` builds from `demoPredictive`'s
observations: their mean `2`, as a 0-dimensional FP32 tensor. -/
def demoOutput : ResponseOutput :=
  { name := "obs_mean", shape := [], datatype := "FP32", data := [2], parameters := none }

/-- The response `demoState` produces for `demoRequest`. -/
def demoResponse : InferenceResponse :=
  { id := some "r1", model_name := "numpyro-divorce", model_version := some "0.1.0",
    outputs := [demoOutput] }

/-- A concrete request with an empty inputs list and no id. -/
def emptyRequest : InferenceRequest := { id := none, inputs := [] }

/-- The response `demoState` produces for `emptyRequest`. -/
def emptyResponse : InferenceResponse :=
  { id := none, model_name := "numpyro-divorce", model_version := some "0.1.0",
    outputs := [demoOutput] }

/-- The response the handler produces for `emptyRequest` after generating the
fresh id `gen-1`. -/
def generatedResponse : InferenceResponse :=
  { id := some "gen-1", model_name := "numpyro-divorce", model_version := some "0.1.0",
    outputs := [demoOutput] }

/-- A concrete valid payload with a nonempty name. -/
def namedPayload : TensorPayload :=
  { name := "x", shape := [1], datatype := .FP32, data := [.floatVal 28], parameters := [] }

/-- A batch of distinct-id calls against one instance: requests paired with
the ambient key of their call context. -/
def demoCalls : List (InferenceRequest × Nat) :=
  [({ id := some "c0", inputs := [] }, 0),
   ({ id := some "c1", inputs := [] }, 1),
   ({ id := some "c2", inputs := [] }, 2)]

/-- Many `predict` calls against one instance, each with its own request and
ambient call context; the instance state is shared (and, by
`predict_state_eq`, untouched), which models issuing the calls
concurrently. -/
def predictMany (s : NumpyroModelState) (calls : List (InferenceRequest × Nat)) :
    List (Except PyError InferenceResponse) :=
  calls.map (fun c => (s.predict c.1 c.2).1)

/-! ## Helper lemmas -/

/-- The translated `predict` body contains no assignment to `self`: the
post-state is the pre-state on every control path. -/
theorem predict_state_eq (s : NumpyroModelState) (r : InferenceRequest) (a : Nat) :
    (s.predict r a).2 = s := by
  unfold NumpyroModelState.predict
  cases s._predictive <;> simp [apply_ite]

/-- Inversion for successful `predict` calls: a `.ok` result can only come
from the single `return` statement, so the response is exactly the one built
there, and `self._predictive` was set. -/
theorem predict_ok_inv (s : NumpyroModelState) (r : InferenceRequest) (a : Nat)
    (resp : InferenceResponse) (h : (s.predict r a).1 = .ok resp) :
    ∃ predictive, s._predictive = some predictive ∧
      resp = { id := r.id, model_name := s.name, model_version := s.version,
               outputs := [{ name := "obs_mean", shape := scalarShape, datatype := "FP32",
                             data := scalarData
                               (listMean (predictive (PRNGKey 0) (extractInputs r))),
                             parameters := none }] } := by
  unfold NumpyroModelState.predict at h
  cases hp : s._predictive with
  | none => rw [hp] at h; simp at h
  | some predictive =>
      rw [hp] at h
      by_cases hall : (extractInputs r).all (fun kv => modelParamNames.contains kv.1)
      · simp only [hall, if_true] at h
        simp at h
        exact ⟨predictive, rfl, h.symm⟩
      · simp only [Bool.not_eq_true] at hall
        simp only [hall, if_false] at h
        simp at h

/-- Two input lists that agree on the `(name, data)` projection build the
same keyword dictionary, whatever the accumulator. -/
theorem foldl_dictInsert_congr (xs ys : List RequestInput)
    (h : xs.map (fun i => (i.name, i.data)) = ys.map (fun i => (i.name, i.data))) :
    ∀ acc : InputsDict,
      xs.foldl (fun d inp => dictInsert d inp.name inp.data) acc
        = ys.foldl (fun d inp => dictInsert d inp.name inp.data) acc := by
  induction xs generalizing ys with
  | nil =>
      cases ys with
      | nil => intro acc; rfl
      | cons y ys => simp at h
  | cons x xs ih =>
      cases ys with
      | nil => simp at h
      | cons y ys =>
          simp only [List.map_cons, List.cons.injEq, Prod.mk.injEq] at h
          obtain ⟨⟨hn, hd⟩, ht⟩ := h
          intro acc
          simp only [List.foldl_cons]
          rw [hn, hd]
          exact ih ys ht _

/-- The keyword dictionary `_extract_inputs` builds depends only on the
names and data of the request's inputs. -/
theorem extractInputs_congr (r₁ r₂ : InferenceRequest)
    (h : r₁.inputs.map (fun i => (i.name, i.data))
          = r₂.inputs.map (fun i => (i.name, i.data))) :
    extractInputs r₁ = extractInputs r₂ :=
  foldl_dictInsert_congr r₁.inputs r₂.inputs h []

/-- Evaluation of `predict` at the concrete demo instance and request. -/
theorem demo_predict_eval :
    (demoState.predict demoRequest 0).1 = Except.ok demoResponse := by
  unfold NumpyroModelState.predict
  norm_num [demoState, demoRequest, demoResponse, demoOutput, demoPredictive,
            extractInputs, dictInsert, modelParamNames, listMean, scalarData, scalarShape]

/-- Evaluation of `predict` at the concrete demo instance and the
empty-inputs request. -/
theorem empty_predict_eval :
    (demoState.predict emptyRequest 0).1 = Except.ok emptyResponse := by
  unfold NumpyroModelState.predict
  norm_num [demoState, emptyRequest, emptyResponse, demoOutput, demoPredictive,
            extractInputs, dictInsert, modelParamNames, listMean, scalarData, scalarShape]

/-- Evaluation of the handler at the concrete demo instance and the id-less
request. -/
theorem handle_eval :
    (handle demoState "gen-1" emptyRequest 0).1 = Except.ok generatedResponse := by
  unfold handle completeId NumpyroModelState.predict
  norm_num [demoState, emptyRequest, generatedResponse, demoOutput, demoPredictive,
            extractInputs, dictInsert, modelParamNames, listMean, scalarData, scalarShape]

/-! ## Claims -/


/-- C1: every successful `predict` response echoes the request's id and
carries the serving instance's `name` and `version`; and over any batch of
calls against one instance, the k-th response's id is the k-th request's id —
no cross-talk between responses. -/
theorem predict_echoes_request_id (s : NumpyroModelState) :
    (∀ (req : InferenceRequest) (amb : Nat) (i : String) (resp : InferenceResponse),
        req.id = some i → (s.predict req amb).1 = .ok resp →
        resp.id = some i ∧ resp.model_name = s.name ∧ resp.model_version = s.version) ∧
    (∀ (calls : List (InferenceRequest × Nat)) (k : Nat) (resp : InferenceResponse),
        (predictMany s calls)[k]? = some (.ok resp) →
        ∃ c, calls[k]? = some c ∧ resp.id = c.1.id) := by
  constructor
  · intro req amb i resp hid hok
    obtain ⟨p, _, hresp⟩ := predict_ok_inv s req amb resp hok
    subst hresp
    exact ⟨hid, rfl, rfl⟩
  · intro calls k resp hk
    simp only [predictMany, List.getElem?_map] at hk
    obtain ⟨c, hc, hok⟩ := Option.map_eq_some'.mp hk
    obtain ⟨p, _, hresp⟩ := predict_ok_inv s c.1 c.2 resp hok
    subst hresp
    exact ⟨c, hc, rfl⟩

/-- Witness for C1 at a concrete instance and request. -/
theorem predict_echoes_request_id_witness :
    demoRequest.id = some "r1" ∧
    (demoState.predict demoRequest 0).1 = .ok demoResponse ∧
    (demoResponse.id = some "r1" ∧ demoResponse.model_name = "numpyro-divorce" ∧
      demoResponse.model_version = some "0.1.0") :=
  ⟨rfl, demo_predict_eval,
    (predict_echoes_request_id demoState).1 demoRequest 0 "r1" demoResponse rfl demo_predict_eval⟩

/-- C2: every output tensor of a successful `predict` response satisfies the
tensor invariant (data length equals the product of the shape; a zero
dimension forces empty data), and its shape is the numpy shape of a
0-dimensional array. -/
theorem predict_output_tensor_invariant (s : NumpyroModelState) (r : InferenceRequest)
    (a : Nat) (resp : InferenceResponse) (h : (s.predict r a).1 = .ok resp) :
    ∀ o ∈ resp.outputs, tensorInvariant o = true ∧ o.shape = scalarShape := by
  obtain ⟨p, _, hresp⟩ := predict_ok_inv s r a resp h
  subst hresp
  intro o ho
  simp only [List.mem_singleton] at ho
  subst ho
  exact ⟨rfl, rfl⟩

/-- Witness for C2 at a concrete instance and request. -/
theorem predict_output_tensor_invariant_witness :
    (demoState.predict demoRequest 0).1 = .ok demoResponse ∧
    demoOutput ∈ demoResponse.outputs ∧
    (tensorInvariant demoOutput = true ∧ demoOutput.shape = scalarShape) := by
  have h : (demoState.predict demoRequest 0).1 = .ok demoResponse := demo_predict_eval
  have hm : demoOutput ∈ demoResponse.outputs := by simp [demoResponse]
  exact ⟨h, hm, predict_output_tensor_invariant demoState demoRequest 0 demoResponse h demoOutput hm⟩

/-- C3 counterexample: a request with no `marriage` and no `age` input (an
empty inputs list) does not make `predict` fail with an `InvalidInputError`:
`predict` returns a computed response. -/
theorem predict_missing_inputs_counterexample :
    (demoState.predict emptyRequest 0).1 = .ok emptyResponse := empty_predict_eval

/-- C3 (amended): `NumpyroModel` requires no input tensor: a `predict` call
on a loaded instance whose request has an empty inputs list raises no
`InvalidInputError` and silently falls back to the model's defaults,
returning the response computed from the predictive with no keyword
inputs. -/
theorem predict_accepts_missing_inputs (s : NumpyroModelState) (req : InferenceRequest)
    (amb : Nat) (predictive : Nat → InputsDict → List PyFloat)
    (hp : s._predictive = some predictive) (hin : req.inputs = []) :
    (s.predict req amb).1 =
      .ok { id := req.id, model_name := s.name, model_version := s.version,
            outputs := [{ name := "obs_mean", shape := scalarShape, datatype := "FP32",
                          data := scalarData (listMean (predictive (PRNGKey 0) [])),
                          parameters := none }] } := by
  have hex : extractInputs req = [] := by simp [extractInputs, hin]
  unfold NumpyroModelState.predict
  rw [hp]
  simp only [hex, List.all_nil, if_true]

/-- Witness for the amended C3 at a concrete instance and request. -/
theorem predict_accepts_missing_inputs_witness :
    demoState._predictive = some demoPredictive ∧ emptyRequest.inputs = [] ∧
    (demoState.predict emptyRequest 0).1 =
      .ok { id := emptyRequest.id, model_name := demoState.name,
            model_version := demoState.version,
            outputs := [{ name := "obs_mean", shape := scalarShape, datatype := "FP32",
                          data := scalarData (listMean (demoPredictive (PRNGKey 0) [])),
                          parameters := none }] } :=
  ⟨rfl, rfl, predict_accepts_missing_inputs demoState emptyRequest 0 demoPredictive rfl rfl⟩

/-- C4: a fresh instance is not ready; a `load` whose file read or parse
raises propagates the exception leaving `ready` untouched; a `load` that
returns normally returns `True` with `ready` set; and `load` never returns
`False`. -/
theorem load_ready_contract :
    (∀ (n : String) (v : Option String), (NumpyroModelState.init n v).ready = false) ∧
    (∀ (s : NumpyroModelState) (lib : NumpyroLib) (e : String),
        (s.load lib (.error e)).1 = .error e ∧ (s.load lib (.error e)).2.ready = s.ready) ∧
    (∀ (s : NumpyroModelState) (lib : NumpyroLib) (raw : Samples),
        (s.load lib (.ok raw)).1 = .ok true ∧ (s.load lib (.ok raw)).2.ready = true) ∧
    (∀ (s : NumpyroModelState) (lib : NumpyroLib) (res : Except String Samples) (b : Bool),
        (s.load lib res).1 = .ok b → b = true) := by
  refine ⟨fun n v => rfl, fun s lib e => ⟨rfl, rfl⟩, fun s lib raw => ⟨rfl, rfl⟩, ?_⟩
  intro s lib res b h
  cases res with
  | error e => simp [NumpyroModelState.load] at h
  | ok raw =>
      simp [NumpyroModelState.load] at h
      exact h

/-- Witness for C4 at a concrete instance, failing read and successful
read. -/
theorem load_ready_contract_witness :
    (NumpyroModelState.init "numpyro-divorce" (some "0.1.0")).ready = false ∧
    ((NumpyroModelState.init "numpyro-divorce" (some "0.1.0")).load demoLib
        (.error "no such file")).2.ready = false ∧
    ((NumpyroModelState.init "numpyro-divorce" (some "0.1.0")).load demoLib
        (.ok demoRaw)).1 = .ok true ∧
    true = true := by
  refine ⟨load_ready_contract.1 "numpyro-divorce" (some "0.1.0"), ?_, ?_, ?_⟩
  · rw [(load_ready_contract.2.1 (NumpyroModelState.init "numpyro-divorce" (some "0.1.0"))
        demoLib "no such file").2]
    exact load_ready_contract.1 "numpyro-divorce" (some "0.1.0")
  · exact (load_ready_contract.2.2.1 (NumpyroModelState.init "numpyro-divorce" (some "0.1.0"))
        demoLib demoRaw).1
  · exact load_ready_contract.2.2.2 (NumpyroModelState.init "numpyro-divorce" (some "0.1.0"))
        demoLib (.ok demoRaw) true
        ((load_ready_contract.2.2.1 (NumpyroModelState.init "numpyro-divorce" (some "0.1.0"))
          demoLib demoRaw).1)

/-- C5: `predict` is deterministic: two calls with equal requests — the
second running on the state left by the first, with a different ambient call
context — return equal results, because the only randomness is the fixed key
`PRNGKey 0` seeded on every call. -/
theorem predict_deterministic (s : NumpyroModelState) (r₁ r₂ : InferenceRequest)
    (a₁ a₂ : Nat) (h : r₁ = r₂) :
    (s.predict r₁ a₁).1 = (((s.predict r₁ a₁).2).predict r₂ a₂).1 := by
  subst h
  rw [predict_state_eq]
  exact rfl

/-- Witness for C5: two calls with the same request and different ambient
contexts. -/
theorem predict_deterministic_witness :
    demoRequest = demoRequest ∧
    (demoState.predict demoRequest 5).1
      = (((demoState.predict demoRequest 5).2).predict demoRequest 9).1 :=
  ⟨rfl, predict_deterministic demoState demoRequest demoRequest 5 9 rfl⟩

/-- C6: a request submitted without an id receives, at the handler boundary,
a response carrying the generated id. -/
theorem handle_generates_id (s : NumpyroModelState) (freshId : String)
    (req : InferenceRequest) (amb : Nat) (resp : InferenceResponse)
    (hid : req.id = none) (h : (handle s freshId req amb).1 = .ok resp) :
    resp.id = some freshId := by
  unfold handle at h
  obtain ⟨p, _, hresp⟩ := predict_ok_inv _ _ _ _ h
  subst hresp
  simp [completeId, hid]

/-- Witness for C6 at a concrete id-less request. -/
theorem handle_generates_id_witness :
    emptyRequest.id = none ∧
    (handle demoState "gen-1" emptyRequest 0).1 = .ok generatedResponse ∧
    generatedResponse.id = some "gen-1" :=
  ⟨rfl, handle_eval,
    handle_generates_id demoState "gen-1" emptyRequest 0 generatedResponse rfl handle_eval⟩

/-- C7: `predict` leaves the instance state unchanged: `_samples`,
`_predictive`, `ready`, `name` and `version` hold the same values after the
call as before it. -/
theorem predict_preserves_state (s : NumpyroModelState) (r : InferenceRequest) (a : Nat) :
    (s.predict r a).2._samples = s._samples ∧
    (s.predict r a).2._predictive = s._predictive ∧
    (s.predict r a).2.ready = s.ready ∧
    (s.predict r a).2.name = s.name ∧
    (s.predict r a).2.version = s.version := by
  rw [predict_state_eq]
  exact ⟨rfl, rfl, rfl, rfl, rfl⟩

/-- C8 counterexample: the round-trip is not the identity on whole payloads:
`fromArray(values, shape, datatype)` has no name argument, so a valid payload
with a nonempty name is not recovered. -/
theorem roundtrip_counterexample :
    namedPayload.valid = true ∧
    fromArray (toArray namedPayload).values (toArray namedPayload).shape
        (toArray namedPayload).datatype ≠ namedPayload := by
  constructor
  · decide
  · decide

/-- C8 (amended): for every valid payload `p` and every supported datatype,
the round-trip through the in-memory array form is exact on the tensor
content: shape, datatype and data are recovered unchanged (no precision
loss); only `name` and `parameters`, which the array form does not carry, are
not restored. -/
theorem roundtrip_preserves_content (p : TensorPayload) (h : p.valid = true) :
    (fromArray (toArray p).values (toArray p).shape (toArray p).datatype).shape = p.shape ∧
    (fromArray (toArray p).values (toArray p).shape (toArray p).datatype).datatype
      = p.datatype ∧
    (fromArray (toArray p).values (toArray p).shape (toArray p).datatype).data = p.data :=
  ⟨rfl, rfl, rfl⟩

/-- Witness for the amended C8 at a concrete valid payload. -/
theorem roundtrip_preserves_content_witness :
    namedPayload.valid = true ∧
    ((fromArray (toArray namedPayload).values (toArray namedPayload).shape
        (toArray namedPayload).datatype).shape = namedPayload.shape ∧
     (fromArray (toArray namedPayload).values (toArray namedPayload).shape
        (toArray namedPayload).datatype).datatype = namedPayload.datatype ∧
     (fromArray (toArray namedPayload).values (toArray namedPayload).shape
        (toArray namedPayload).datatype).data = namedPayload.data) :=
  ⟨by decide, roundtrip_preserves_content namedPayload (by decide)⟩

/-- C9: the `predict` result depends only on the request's id and on the
names and data of its inputs: requests agreeing there but differing in
declared shape, datatype or parameters get identical results, because input
extraction reads only `inp.name` and `inp.data`. -/
theorem predict_reads_only_name_data (s : NumpyroModelState)
    (r₁ r₂ : InferenceRequest) (a₁ a₂ : Nat)
    (hid : r₁.id = r₂.id)
    (hin : r₁.inputs.map (fun i => (i.name, i.data))
            = r₂.inputs.map (fun i => (i.name, i.data))) :
    (s.predict r₁ a₁).1 = (s.predict r₂ a₂).1 := by
  have hex : extractInputs r₁ = extractInputs r₂ := extractInputs_congr r₁ r₂ hin
  unfold NumpyroModelState.predict
  rw [hex, hid]

/-- Witness for C9: two requests with the same input names and data but
different declared shape, datatype and parameters. -/
theorem predict_reads_only_name_data_witness :
    demoRequest.id = demoRequestAlt.id ∧
    demoRequest.inputs.map (fun i => (i.name, i.data))
      = demoRequestAlt.inputs.map (fun i => (i.name, i.data)) ∧
    (demoState.predict demoRequest 0).1 = (demoState.predict demoRequestAlt 1).1 :=
  ⟨rfl, rfl, predict_reads_only_name_data demoState demoRequest demoRequestAlt 0 1 rfl rfl⟩

/-- C10: every response `predict` returns contains exactly one output
tensor, named `obs_mean` with datatype `FP32`, whatever the request's
inputs. -/
theorem predict_single_fp32_output (s : NumpyroModelState) (r : InferenceRequest)
    (a : Nat) (resp : InferenceResponse) (h : (s.predict r a).1 = .ok resp) :
    resp.outputs.length = 1 ∧
    ∀ o ∈ resp.outputs, o.name = "obs_mean" ∧ o.datatype = "FP32" := by
  obtain ⟨p, _, hresp⟩ := predict_ok_inv s r a resp h
  subst hresp
  refine ⟨rfl, ?_⟩
  intro o ho
  simp only [List.mem_singleton] at ho
  subst ho
  exact ⟨rfl, rfl⟩

/-- Witness for C10 at a concrete instance and request. -/
theorem predict_single_fp32_output_witness :
    (demoState.predict demoRequest 0).1 = .ok demoResponse ∧
    demoResponse.outputs.length = 1 ∧
    demoOutput ∈ demoResponse.outputs ∧
    demoOutput.name = "obs_mean" ∧ demoOutput.datatype = "FP32" := by
  have h : (demoState.predict demoRequest 0).1 = .ok demoResponse := demo_predict_eval
  have t := predict_single_fp32_output demoState demoRequest 0 demoResponse h
  have hm : demoOutput ∈ demoResponse.outputs := by simp [demoResponse]
  exact ⟨h, t.1, hm, (t.2 demoOutput hm).1, (t.2 demoOutput hm).2⟩

end MLServer
